import Mathlib

/-!
Verification development for the systemd clone-device boot generator
(src/src/clone/clone-generator.c).  The data model and the operations are
shallowly embedded: the table reader `add_clone_devices`/`readTab`, the unit
synthesizer `generate_clone_units`/`synthesize`, and the name/escape helpers.
Helpers whose C source is not part of the repository snapshot (unit-name.c,
escape.c, special.h) are modelled from the specification and marked as such.
-/

set_option autoImplicit false

namespace CloneGen

/-- One parsed clonetab row: `name source dest metadata [options]`
(spec section 3, "CloneEntry"; fields are the five `%ms` scan targets of
`add_clone_devices`). -/
structure CloneEntry where
  name : String
  sourceDevice : String
  destDevice : String
  metadataDevice : String
  options : Option String
deriving DecidableEq

/-- The whitespace characters stripped by `read_stripped_line` and separating
`sscanf` `%ms` tokens (systemd WHITESPACE is space, tab, newline, CR). -/
def isWsChar (c : Char) : Bool :=
  c == ' ' || c == '\t' || c == '\n' || c == '\r'

/-- Drop leading whitespace characters. -/
def stripLeading : List Char → List Char
  | [] => []
  | c :: cs => if isWsChar c then stripLeading cs else c :: cs

/-- Modelled from the spec: `read_stripped_line` (fileio.h, not under src/)
strips leading and trailing whitespace from each line. -/
def stripWsList (l : List Char) : List Char :=
  ((stripLeading ((stripLeading l).reverse)).reverse)

/-- Whitespace tokenization, as performed by five `%ms` conversions of
`sscanf`: maximal runs of non-whitespace characters. -/
def splitWsAux : List Char → List Char → List (List Char)
  | [], [] => []
  | [], cur => [cur.reverse]
  | c :: cs, cur =>
    if isWsChar c then
      if cur.isEmpty then splitWsAux cs []
      else cur.reverse :: splitWsAux cs []
    else splitWsAux cs (c :: cur)

/-- The whitespace-separated tokens of a raw table line after stripping. -/
def tokensOfLine (raw : String) : List String :=
  (splitWsAux (stripWsList raw.data) []).map String.mk

/-- Prefix test on character lists; `startswith` from string-util.h reduced
to its contract. -/
def isPfxOf : List Char → List Char → Bool
  | [], _ => true
  | _ :: _, [] => false
  | a :: as, b :: bs => a == b && isPfxOf as bs

/-- `startswith(s, p)` from string-util.h: does `s` begin with `p`? -/
def startswith (s p : String) : Bool := isPfxOf p.data s.data

/-- Suffix test on character lists (for the `ExecStart=... add ...` scenario). -/
def isSfxOf (p l : List Char) : Bool := isPfxOf p.reverse l.reverse

/-- Number of lines of `ls` that begin with `p`. -/
def countPfx (p : String) (ls : List String) : Nat :=
  (ls.filter (fun l => isPfxOf p.data l.data)).length

/-- Lower-case hex digit of `n < 16`. -/
def hexDigit (n : Nat) : Char :=
  if n < 10 then Char.ofNat (48 + n) else Char.ofNat (87 + n)

/-- Characters that survive systemd unit-name escaping unchanged. -/
def isUnitSafeChar (c : Char) : Bool :=
  c.isAlphanum || c == ':' || c == '_' || c == '.'

/-- Hex escape of one character, `\xHH`. -/
def escapeCharHex (c : Char) : List Char :=
  ['\\', 'x', hexDigit (c.toNat / 16 % 16), hexDigit (c.toNat % 16)]

/-- Modelled from the spec: `escapeUnitName`/`unit_name_escape` (unit-name.c,
not under src/) deterministically maps an identifier to a unit-name-safe
string: `/` becomes `-`, other unsafe characters are hex-escaped. -/
def unitNameEscapeList : List Char → List Char
  | [] => []
  | c :: cs =>
    (if c == '/' then ['-']
     else if isUnitSafeChar c then [c]
     else escapeCharHex c) ++ unitNameEscapeList cs

/-- Modelled from the spec: `unit_name_escape` on strings. -/
def unit_name_escape (s : String) : String :=
  String.mk (unitNameEscapeList s.data)

/-- Modelled from the spec: `buildUnitName`/`unit_name_build` (unit-name.c,
not under src/); the spec scenario fixes the naming convention as
`prefix@escapedId.suffix` (input `disk1` yields `systemd-clone@disk1.service`). -/
def unit_name_build (pfx inst sfx : String) : String :=
  pfx ++ "@" ++ inst ++ sfx

/-- Drop leading and trailing `/` characters of a path. -/
def stripSlashes (l : List Char) : List Char :=
  (((l.dropWhile (fun c => c == '/')).reverse.dropWhile (fun c => c == '/')).reverse)

/-- Modelled from the spec: `unitNameFromDevicePath`/`unit_name_from_path`
(unit-name.c, not under src/): maps a device path to the canonical device
unit name, failing with a NameDerivationError (`none`) when the path cannot
be canonicalized (it has no non-slash component). -/
def unit_name_from_path (p : String) (sfx : String) : Option String :=
  match stripSlashes p.data with
  | [] => none
  | c :: cs => some (String.mk (unitNameEscapeList (c :: cs)) ++ sfx)

/-- Character-list form of the command-line escaping: backslash and double
quote are backslash-escaped. -/
def escShellList : List Char → List Char
  | [] => []
  | c :: cs =>
    (if c == '\\' then ['\\', '\\']
     else if c == '"' then ['\\', '"']
     else [c]) ++ escShellList cs

/-- Modelled from the spec: `escapeShellLiteral`/`cescape` (escape.c, not
under src/): "backslash/quote escaping" of a raw string for embedding in
generated command-line text; never fails. -/
def escapeShellLiteral (s : String) : String :=
  String.mk (escShellList s.data)

/-- Modelled from the spec: the build-time path of the opaque external
clone-management executable (`SYSTEMD_CLONE_PATH` macro). -/
def SYSTEMD_CLONE_PATH : String := "/usr/lib/systemd/systemd-clone"

/-- Modelled from the spec: the fixed, well-known clone-devices target
(`SPECIAL_CLONE_TARGET` from special.h, not under src/). -/
def SPECIAL_CLONE_TARGET : String := "clone.target"

/-- `path_join` from path-util.h reduced to its contract: join with `/`. -/
def path_join (a b : String) : String := a ++ "/" ++ b

/-- The `[Unit]` header written first by `generate_clone_units`
(clone-generator.c lines 111-116). -/
def unitHeaderLines (clone_dev_path : String) : List String :=
  ["[Unit]",
   "Description=Create dm-clone device " ++ clone_dev_path,
   "Documentation=man:dmsetup(8) man:fstab(5) man:systemd-fstab-generator(8)",
   "DefaultDependencies=no"]

/-- The hard dependency block emitted when not in loop mode
(clone-generator.c lines 118-126). -/
def hardDepLines (su du mu : String) : List String :=
  ["BindsTo=" ++ su ++ " " ++ du ++ " " ++ mu,
   "Requires=" ++ su ++ " " ++ du ++ " " ++ mu,
   "After=" ++ su ++ " " ++ du ++ " " ++ mu]

/-- The fixed middle section (clone-generator.c lines 128-136). -/
def middleLines (e : String) : List String :=
  ["Before=blockdev@dev-mapper-" ++ e ++ ".target",
   "Wants=blockdev@dev-mapper-" ++ e ++ ".target",
   "Conflicts=shutdown.target",
   "",
   "[Service]",
   "Type=oneshot",
   "RemainAfterExit=yes"]

/-- The argument part of the `ExecStart=` line: the external executable,
the `add` verb and five single-quoted arguments (clone-generator.c line 142). -/
def execStartValue (n a b c d : String) : String :=
  SYSTEMD_CLONE_PATH ++ " add '" ++ n ++ "' '" ++ a ++ "' '" ++ b ++ "' '"
    ++ c ++ "' '" ++ d ++ "'"

/-- The `ExecStart`/`ExecStop`/`TimeoutSec` tail (clone-generator.c lines
141-146); the fifth `ExecStart` argument is the literal empty string, as in
the source `fprintf` argument list. -/
def tailLines (clone_name ea eb ec : String) : List String :=
  ["ExecStart=" ++ execStartValue clone_name ea eb ec "",
   "ExecStop=" ++ SYSTEMD_CLONE_PATH ++ " remove " ++ clone_name,
   "TimeoutSec=0"]

/-- Full unit-file text (as lines) written by `generate_clone_units`,
with the two `setup_loop` conditionals of lines 118-126 and 138-139. -/
def unitFileLines (clone_dev_path e su du mu ea eb ec clone_name : String)
    (setup_loop : Bool) : List String :=
  unitHeaderLines clone_dev_path
    ++ (if setup_loop then [] else hardDepLines su du mu)
    ++ middleLines e
    ++ (if setup_loop then ["ExecStartPre=/usr/share/script.sh"] else [])
    ++ tailLines clone_name ea eb ec

/-- `setup_loop` (clone-generator.c line 109): all three device paths begin
with the loop-device prefix. -/
def loopMode (e : CloneEntry) : Bool :=
  startswith e.sourceDevice "/dev/loop" && startswith e.destDevice "/dev/loop"
    && startswith e.metadataDevice "/dev/loop"

/-- The per-entry synthesis error taxonomy (spec section 7). -/
inductive SynthErr
  | nameDerivation (which : String)
deriving DecidableEq

/-- The escaped service unit name, `systemd-clone@<escaped>.service`
(clone-generator.c lines 67-74). -/
def serviceUnitName (n : String) : String :=
  unit_name_build "systemd-clone" (unit_name_escape n) ".service"

/-- The mapper device unit name `dev-mapper-<escaped>.device`
(clone-generator.c line 153). -/
def dmName (n : String) : String :=
  "dev-mapper-" ++ unit_name_escape n ++ ".device"

/-- Contents of the device-timeout drop-in (clone-generator.c lines 159-162). -/
def dropinContents : String :=
  "# Automatically generated by systemd-clone-generator\n\n[Unit]\nJobTimeoutSec=infinity\n"

/-- The output of synthesizing one CloneEntry: unit identifier, unit-file
text (lines), symlink directives (unit, subdirectory kind, linked unit) and
drop-in directive (unit, priority, name, contents). -/
structure GeneratedUnit where
  unit : String
  text : List String
  symlinks : List (String × String × String)
  dropin : Option (String × Nat × String × String)
deriving DecidableEq

/-- Pure fields of the successful synthesis for one entry, given the three
derived device unit names (straight-line part of `generate_clone_units`). -/
def mkGenerated (entry : CloneEntry) (source_unit dest_unit metadata_unit : String) :
    GeneratedUnit :=
  { unit := serviceUnitName entry.name
    text := unitFileLines (path_join "/dev/mapper" entry.name)
      (unit_name_escape entry.name) source_unit dest_unit metadata_unit
      (escapeShellLiteral entry.sourceDevice) (escapeShellLiteral entry.destDevice)
      (escapeShellLiteral entry.metadataDevice) entry.name (loopMode entry)
    symlinks := [(dmName entry.name, "requires", serviceUnitName entry.name),
                 (SPECIAL_CLONE_TARGET, "requires", serviceUnitName entry.name)]
    dropin := some (dmName entry.name, 40, "device-timeout", dropinContents) }

/-- `synthesize(entry)`: the I/O-free view of `generate_clone_units`.  The
three `unit_name_from_path` calls are attempted in source order (lines
79-89); the first failure aborts the entry with a NameDerivationError. -/
def synthesize (entry : CloneEntry) : Except SynthErr GeneratedUnit :=
  match unit_name_from_path entry.sourceDevice ".device",
        unit_name_from_path entry.destDevice ".device",
        unit_name_from_path entry.metadataDevice ".device" with
  | none, _, _ => .error (.nameDerivation "source")
  | some _, none, _ => .error (.nameDerivation "dest")
  | some _, some _, none => .error (.nameDerivation "metadata")
  | some source_unit, some dest_unit, some metadata_unit =>
    .ok (mkGenerated entry source_unit dest_unit metadata_unit)

/-- Outcomes of the I/O steps of `generate_clone_units`, in source order:
`generator_open_unit_file`, `fflush_and_check`, the `requires` symlink for
the mapper device unit, `write_drop_in`, and the `requires` symlink into the
clone target.  `0` is success, a negative value the errno-style failure. -/
structure IOEnv where
  openUnit : Int
  writeUnit : Int
  symlinkReq : Int
  dropinWrite : Int
  symlinkTarget : Int
deriving DecidableEq

/-- All I/O steps succeed. -/
def ioOk : IOEnv := ⟨0, 0, 0, 0, 0⟩

/-- A filesystem artifact produced by the generator. -/
inductive Artifact
  | unitFile (name : String) (lines : List String)
  | symlink (unit dirKind target : String)
  | dropinFile (unit : String) (prio : Nat) (name contents : String)
deriving DecidableEq

/-- errno value used by the model for name-derivation failures. -/
def EINVAL : Int := 22

/-- The I/O-dependent tail of `generate_clone_units` after the three device
unit names have been derived: unit-file write, mapper `requires` symlink,
best-effort drop-in (failure only logged, lines 163-164), clone-target
`requires` symlink; returns the status and the artifacts produced. -/
def generate_clone_units_io (env : IOEnv) (clone_name source_dev dest_dev metadata_dev
    source_unit dest_unit metadata_unit : String) : Int × List Artifact :=
  if env.openUnit < 0 then (env.openUnit, [])
  else
    let setup_loop := startswith source_dev "/dev/loop" && startswith dest_dev "/dev/loop"
      && startswith metadata_dev "/dev/loop"
    let lines := unitFileLines (path_join "/dev/mapper" clone_name)
      (unit_name_escape clone_name) source_unit dest_unit metadata_unit
      (escapeShellLiteral source_dev) (escapeShellLiteral dest_dev)
      (escapeShellLiteral metadata_dev) clone_name setup_loop
    if env.writeUnit < 0 then (env.writeUnit, [.unitFile (serviceUnitName clone_name) lines])
    else if env.symlinkReq < 0 then
      (env.symlinkReq, [.unitFile (serviceUnitName clone_name) lines])
    else
      let acc1 : List Artifact := [.unitFile (serviceUnitName clone_name) lines,
        .symlink (dmName clone_name) "requires" (serviceUnitName clone_name)]
      let acc2 := if env.dropinWrite < 0 then acc1
        else acc1 ++ [.dropinFile (dmName clone_name) 40 "device-timeout" dropinContents]
      if env.symlinkTarget < 0 then (env.symlinkTarget, acc2)
      else (0, acc2 ++ [.symlink SPECIAL_CLONE_TARGET "requires" (serviceUnitName clone_name)])

/-- `generate_clone_units` (clone-generator.c lines 43-172): derive the three
device unit names (first failure aborts the entry with a negative status and
no artifacts), then perform the I/O steps.  `options` is accepted but never
used, exactly as in the source. -/
def generate_clone_units (env : IOEnv) (clone_name source_dev dest_dev metadata_dev : String)
    (options : Option String) : Int × List Artifact :=
  match unit_name_from_path source_dev ".device",
        unit_name_from_path dest_dev ".device",
        unit_name_from_path metadata_dev ".device" with
  | none, _, _ => (-EINVAL, [])
  | some _, none, _ => (-EINVAL, [])
  | some _, some _, none => (-EINVAL, [])
  | some source_unit, some dest_unit, some metadata_unit =>
    generate_clone_units_io env clone_name source_dev dest_dev metadata_dev
      source_unit dest_unit metadata_unit

/-- One element of the Table Reader's output sequence. -/
inductive TabItem
  | parseError (lineno : Nat)
  | entry (e : CloneEntry)
deriving DecidableEq

/-- Build a CloneEntry from the scanned tokens: the first four fields and,
when present, a fifth options token (tokens past the fifth are never
assigned by the five `%ms` conversions and are ignored). -/
def mkEntry (ts : List String) : CloneEntry :=
  { name := ts.getD 0 ""
    sourceDevice := ts.getD 1 ""
    destDevice := ts.getD 2 ""
    metadataDevice := ts.getD 3 ""
    options := ts.get? 4 }

/-- Processing of one read line (clone-generator.c lines 200-211): skip
empty and `#` lines; scan up to five tokens (`k = min(tokens, 5)` is the
`sscanf` conversion count); `k < 4 || k > 5` is a parse error; otherwise an
entry. `none` means the line is skipped silently. -/
def readLine (n : Nat) (raw : String) : Option TabItem :=
  match stripWsList raw.data with
  | [] => none
  | c :: cs =>
    if c = '#' then none
    else if min ((splitWsAux (c :: cs) []).map String.mk).length 5 < 4
        ∨ 5 < min ((splitWsAux (c :: cs) []).map String.mk).length 5 then
      some (.parseError n)
    else some (.entry (mkEntry ((splitWsAux (c :: cs) []).map String.mk)))

/-- The read loop of `add_clone_devices`, threading the 1-based line counter
`clone_line`, which is incremented for every line read, including blank and
comment lines (lines 190-212). -/
def readTabAux : List String → Nat → List TabItem
  | [], _ => []
  | raw :: rest, n =>
    match readLine n raw with
    | none => readTabAux rest (n + 1)
    | some item => item :: readTabAux rest (n + 1)

/-- `readEntries(path)` applied to the list of raw lines of the table file. -/
def readTab (ls : List String) : List TabItem := readTabAux ls 1

/-- `RET_GATHER(ret, r)` sequencing: the first negative status wins. -/
def ret_gather (a b : Int) : Int := if a < 0 then a else b

/-- The generation loop over the Table Reader's items: a parse error is
logged and skipped (the `continue` of line 208), an entry is synthesized and
its status gathered into the run status (line 211). -/
def driveItems (env : IOEnv) : List TabItem → Int × List Artifact
  | [] => (0, [])
  | .parseError _ :: rest => driveItems env rest
  | .entry e :: rest =>
    (ret_gather
        (generate_clone_units env e.name e.sourceDevice e.destDevice e.metadataDevice e.options).1
        (driveItems env rest).1,
      (generate_clone_units env e.name e.sourceDevice e.destDevice e.metadataDevice e.options).2
        ++ (driveItems env rest).2)

/-- Result of `fopen_unlocked` on the table file. -/
inductive OpenResult
  | ok (lines : List String)
  | enoent
  | otherError (errno : Int)

/-- `add_clone_devices` (clone-generator.c lines 174-215): a missing table
file yields success with no work; any other open failure is logged (when
`errno != ENOENT`) but the function still returns 0 (lines 183-188);
otherwise the lines are read and driven. -/
def add_clone_devices (o : OpenResult) (env : IOEnv) : Int × List Artifact :=
  match o with
  | .enoent => (0, [])
  | .otherError _ => (0, [])
  | .ok ls => driveItems env (readTab ls)

/-- Scanner state of the shell-compatible command-line tokenizer: outside
any quoting, inside single quotes, inside double quotes, after a backslash
inside double quotes, after a backslash outside quotes. -/
inductive SMode
  | norm
  | squote
  | dquote
  | dquoteEsc
  | esc

/-- Modelled from the spec: a shell-compatible tokenization rule for the
generated `ExecStart` command line (the orchestrator-side parser is not under
src/).  Whitespace separates tokens; single-quoted text is literal;
double-quoted text processes backslash escapes for `\"` or `\\`; a backslash
outside quotes escapes the next character; an unterminated quote or trailing
backslash fails. -/
def shellSplitAux : List Char → SMode → List Char → Bool → Option (List String)
  | [], .norm, cur, started => some (if started then [String.mk cur.reverse] else [])
  | [], .squote, _, _ => none
  | [], .dquote, _, _ => none
  | [], .dquoteEsc, _, _ => none
  | [], .esc, _, _ => none
  | c :: cs, .norm, cur, started =>
    if isWsChar c then
      if started then
        (shellSplitAux cs .norm [] false).map (fun ts => String.mk cur.reverse :: ts)
      else shellSplitAux cs .norm [] false
    else if c = '\'' then shellSplitAux cs .squote cur true
    else if c = '"' then shellSplitAux cs .dquote cur true
    else if c = '\\' then shellSplitAux cs .esc cur true
    else shellSplitAux cs .norm (c :: cur) true
  | c :: cs, .squote, cur, started =>
    if c = '\'' then shellSplitAux cs .norm cur started
    else shellSplitAux cs .squote (c :: cur) started
  | c :: cs, .dquote, cur, started =>
    if c = '"' then shellSplitAux cs .norm cur started
    else if c = '\\' then shellSplitAux cs .dquoteEsc cur started
    else shellSplitAux cs .dquote (c :: cur) started
  | c :: cs, .dquoteEsc, cur, started =>
    if c = '"' ∨ c = '\\' then shellSplitAux cs .dquote (c :: cur) started
    else shellSplitAux cs .dquote (c :: '\\' :: cur) started
  | c :: cs, .esc, cur, started => shellSplitAux cs .norm (c :: cur) started

/-- Tokenize a command line by the shell-compatible rule. -/
def shellTokenize (s : String) : Option (List String) :=
  shellSplitAux s.data .norm [] false

theorem readTabAux_skip (raw : String) (rest : List String) (n : Nat)
    (h : readLine n raw = none) :
    readTabAux (raw :: rest) n = readTabAux rest (n + 1) := by
  rw [show readTabAux (raw :: rest) n = match readLine n raw with
      | none => readTabAux rest (n + 1)
      | some item => item :: readTabAux rest (n + 1) from rfl, h]

theorem readTabAux_item (raw : String) (rest : List String) (n : Nat) (item : TabItem)
    (h : readLine n raw = some item) :
    readTabAux (raw :: rest) n = item :: readTabAux rest (n + 1) := by
  rw [show readTabAux (raw :: rest) n = match readLine n raw with
      | none => readTabAux rest (n + 1)
      | some item => item :: readTabAux rest (n + 1) from rfl, h]

theorem data_mk (l : List Char) : (String.mk l).data = l := rfl

theorem mk_data (s : String) : String.mk s.data = s := rfl

theorem sappend_data (a b : String) : (a ++ b).data = a.data ++ b.data := rfl

theorem synthesize_eq (entry : CloneEntry) (su du mu : String)
    (hs : unit_name_from_path entry.sourceDevice ".device" = some su)
    (hd : unit_name_from_path entry.destDevice ".device" = some du)
    (hm : unit_name_from_path entry.metadataDevice ".device" = some mu) :
    synthesize entry = .ok (mkGenerated entry su du mu) := by
  unfold synthesize
  rw [hs, hd, hm]

theorem synthesize_ok_elim (entry : CloneEntry) (u : GeneratedUnit)
    (hok : synthesize entry = .ok u) :
    ∃ su du mu, unit_name_from_path entry.sourceDevice ".device" = some su
      ∧ unit_name_from_path entry.destDevice ".device" = some du
      ∧ unit_name_from_path entry.metadataDevice ".device" = some mu
      ∧ u = mkGenerated entry su du mu := by
  unfold synthesize at hok
  cases hs : unit_name_from_path entry.sourceDevice ".device" <;> rw [hs] at hok
  · exact Except.noConfusion hok
  case some su =>
    cases hd : unit_name_from_path entry.destDevice ".device" <;> rw [hd] at hok
    · exact Except.noConfusion hok
    case some du =>
      cases hm : unit_name_from_path entry.metadataDevice ".device" <;> rw [hm] at hok
      · exact Except.noConfusion hok
      case some mu =>
        exact ⟨su, du, mu, rfl, rfl, rfl, (Except.ok.inj hok).symm⟩

theorem mkGenerated_text (entry : CloneEntry) (su du mu : String) :
    (mkGenerated entry su du mu).text
      = unitFileLines (path_join "/dev/mapper" entry.name) (unit_name_escape entry.name)
          su du mu (escapeShellLiteral entry.sourceDevice)
          (escapeShellLiteral entry.destDevice) (escapeShellLiteral entry.metadataDevice)
          entry.name (loopMode entry) := rfl

/-- C1: for every CloneEntry, loop mode holds exactly when all three device
paths start with the loop prefix; a non-loop unit text contains the
`BindsTo`/`Requires`/`After` lines listing the three derived device units
and no `ExecStartPre` line; a loop unit text omits the three hard-dependency
lines and contains exactly one `ExecStartPre` line. -/
theorem c1_loop_mode_unit_text (entry : CloneEntry) (u : GeneratedUnit) (su du mu : String)
    (hs : unit_name_from_path entry.sourceDevice ".device" = some su)
    (hd : unit_name_from_path entry.destDevice ".device" = some du)
    (hm : unit_name_from_path entry.metadataDevice ".device" = some mu)
    (hok : synthesize entry = .ok u) :
    (loopMode entry
      = (startswith entry.sourceDevice "/dev/loop" && startswith entry.destDevice "/dev/loop"
          && startswith entry.metadataDevice "/dev/loop"))
    ∧ (loopMode entry = false →
        ("BindsTo=" ++ su ++ " " ++ du ++ " " ++ mu) ∈ u.text
        ∧ ("Requires=" ++ su ++ " " ++ du ++ " " ++ mu) ∈ u.text
        ∧ ("After=" ++ su ++ " " ++ du ++ " " ++ mu) ∈ u.text
        ∧ countPfx "ExecStartPre=" u.text = 0)
    ∧ (loopMode entry = true →
        countPfx "BindsTo=" u.text = 0
        ∧ countPfx "Requires=" u.text = 0
        ∧ countPfx "After=" u.text = 0
        ∧ countPfx "ExecStartPre=" u.text = 1) := by
  rw [synthesize_eq entry su du mu hs hd hm] at hok
  injection hok with h
  subst h
  refine ⟨rfl, fun hl => ?_, fun hl => ?_⟩
  · rw [mkGenerated_text, hl]
    refine ⟨?_, ?_, ?_, rfl⟩
    all_goals
      simp [unitFileLines, unitHeaderLines, hardDepLines, middleLines, tailLines]
  · rw [mkGenerated_text, hl]
    exact ⟨rfl, rfl, rfl, rfl⟩

/-- Witness for C1 at the concrete non-loop entry
`disk1 /dev/sdb /dev/sdc /dev/sdd`. -/
theorem c1_witness :
    (loopMode ⟨"disk1", "/dev/sdb", "/dev/sdc", "/dev/sdd", none⟩
      = (startswith "/dev/sdb" "/dev/loop" && startswith "/dev/sdc" "/dev/loop"
          && startswith "/dev/sdd" "/dev/loop"))
    ∧ (loopMode ⟨"disk1", "/dev/sdb", "/dev/sdc", "/dev/sdd", none⟩ = false →
        ("BindsTo=" ++ "dev-sdb.device" ++ " " ++ "dev-sdc.device" ++ " " ++ "dev-sdd.device")
          ∈ (mkGenerated ⟨"disk1", "/dev/sdb", "/dev/sdc", "/dev/sdd", none⟩
              "dev-sdb.device" "dev-sdc.device" "dev-sdd.device").text
        ∧ ("Requires=" ++ "dev-sdb.device" ++ " " ++ "dev-sdc.device" ++ " " ++ "dev-sdd.device")
          ∈ (mkGenerated ⟨"disk1", "/dev/sdb", "/dev/sdc", "/dev/sdd", none⟩
              "dev-sdb.device" "dev-sdc.device" "dev-sdd.device").text
        ∧ ("After=" ++ "dev-sdb.device" ++ " " ++ "dev-sdc.device" ++ " " ++ "dev-sdd.device")
          ∈ (mkGenerated ⟨"disk1", "/dev/sdb", "/dev/sdc", "/dev/sdd", none⟩
              "dev-sdb.device" "dev-sdc.device" "dev-sdd.device").text
        ∧ countPfx "ExecStartPre="
            (mkGenerated ⟨"disk1", "/dev/sdb", "/dev/sdc", "/dev/sdd", none⟩
              "dev-sdb.device" "dev-sdc.device" "dev-sdd.device").text = 0)
    ∧ (loopMode ⟨"disk1", "/dev/sdb", "/dev/sdc", "/dev/sdd", none⟩ = true →
        countPfx "BindsTo="
            (mkGenerated ⟨"disk1", "/dev/sdb", "/dev/sdc", "/dev/sdd", none⟩
              "dev-sdb.device" "dev-sdc.device" "dev-sdd.device").text = 0
        ∧ countPfx "Requires="
            (mkGenerated ⟨"disk1", "/dev/sdb", "/dev/sdc", "/dev/sdd", none⟩
              "dev-sdb.device" "dev-sdc.device" "dev-sdd.device").text = 0
        ∧ countPfx "After="
            (mkGenerated ⟨"disk1", "/dev/sdb", "/dev/sdc", "/dev/sdd", none⟩
              "dev-sdb.device" "dev-sdc.device" "dev-sdd.device").text = 0
        ∧ countPfx "ExecStartPre="
            (mkGenerated ⟨"disk1", "/dev/sdb", "/dev/sdc", "/dev/sdd", none⟩
              "dev-sdb.device" "dev-sdc.device" "dev-sdd.device").text = 1) :=
  c1_loop_mode_unit_text ⟨"disk1", "/dev/sdb", "/dev/sdc", "/dev/sdd", none⟩
    (mkGenerated ⟨"disk1", "/dev/sdb", "/dev/sdc", "/dev/sdd", none⟩
      "dev-sdb.device" "dev-sdc.device" "dev-sdd.device")
    "dev-sdb.device" "dev-sdc.device" "dev-sdd.device" rfl rfl rfl rfl

/-- C4: the input line `disk1 /dev/sdb /dev/sdc /dev/sdd` parses to the
expected entry; its synthesized unit is named `systemd-clone@disk1.service`,
its text lists the three derived device units on the `BindsTo`/`Requires`/
`After` lines and has an `ExecStart` line ending in
`add 'disk1' '/dev/sdb' '/dev/sdc' '/dev/sdd' ''`. -/
theorem c4_scenario_disk1 :
    readTab ["disk1 /dev/sdb /dev/sdc /dev/sdd"]
      = [.entry ⟨"disk1", "/dev/sdb", "/dev/sdc", "/dev/sdd", none⟩]
    ∧ ∃ u : GeneratedUnit,
        synthesize ⟨"disk1", "/dev/sdb", "/dev/sdc", "/dev/sdd", none⟩ = .ok u
        ∧ u.unit = "systemd-clone@disk1.service"
        ∧ "BindsTo=dev-sdb.device dev-sdc.device dev-sdd.device" ∈ u.text
        ∧ "Requires=dev-sdb.device dev-sdc.device dev-sdd.device" ∈ u.text
        ∧ "After=dev-sdb.device dev-sdc.device dev-sdd.device" ∈ u.text
        ∧ ∃ l ∈ u.text, isPfxOf "ExecStart=".data l.data = true
            ∧ isSfxOf "add 'disk1' '/dev/sdb' '/dev/sdc' '/dev/sdd' ''".data l.data = true := by
  refine ⟨by decide,
    mkGenerated ⟨"disk1", "/dev/sdb", "/dev/sdc", "/dev/sdd", none⟩
      "dev-sdb.device" "dev-sdc.device" "dev-sdd.device",
    rfl, by decide, by decide, by decide, by decide, ?_⟩
  exact ⟨"ExecStart=" ++ execStartValue "disk1" "/dev/sdb" "/dev/sdc" "/dev/sdd" "",
    by decide, by decide, by decide⟩

/-- C5: for every successfully synthesized CloneEntry, the `ExecStart` line
of the unit text carries the literal empty string in its fifth quoted slot,
and the parsed options value has no effect on the synthesis result. -/
theorem c5_options_never_forwarded (entry : CloneEntry) (u : GeneratedUnit)
    (hok : synthesize entry = .ok u) :
    ("ExecStart=" ++ execStartValue entry.name (escapeShellLiteral entry.sourceDevice)
        (escapeShellLiteral entry.destDevice) (escapeShellLiteral entry.metadataDevice) "")
      ∈ u.text
    ∧ ∀ o : Option String, synthesize { entry with options := o } = .ok u := by
  refine ⟨?_, fun o => hok⟩
  obtain ⟨su, du, mu, _, _, _, hu⟩ := synthesize_ok_elim entry u hok
  subst hu
  rw [mkGenerated_text]
  simp [unitFileLines, unitHeaderLines, hardDepLines, middleLines, tailLines]

/-- Witness for C5 at a concrete entry carrying an options token. -/
theorem c5_witness :
    ("ExecStart=" ++ execStartValue "disk9" (escapeShellLiteral "/dev/sde")
        (escapeShellLiteral "/dev/sdf") (escapeShellLiteral "/dev/sdg") "")
      ∈ (mkGenerated ⟨"disk9", "/dev/sde", "/dev/sdf", "/dev/sdg", some "discard"⟩
          "dev-sde.device" "dev-sdf.device" "dev-sdg.device").text
    ∧ ∀ o : Option String,
        synthesize { CloneEntry.mk "disk9" "/dev/sde" "/dev/sdf" "/dev/sdg" (some "discard")
            with options := o }
          = .ok (mkGenerated ⟨"disk9", "/dev/sde", "/dev/sdf", "/dev/sdg", some "discard"⟩
              "dev-sde.device" "dev-sdf.device" "dev-sdg.device") :=
  c5_options_never_forwarded ⟨"disk9", "/dev/sde", "/dev/sdf", "/dev/sdg", some "discard"⟩
    (mkGenerated ⟨"disk9", "/dev/sde", "/dev/sdf", "/dev/sdg", some "discard"⟩
      "dev-sde.device" "dev-sdf.device" "dev-sdg.device") rfl

/-- C2 (amended): a non-blank, non-comment line with fewer than 4
whitespace tokens yields a ParseError carrying its own (1-based) line
number, processing continues with the next line, and no CloneEntry is
produced for it; a line with more than 5 tokens is NOT a parse error — the
five `%ms` conversions assign the first five tokens, so it yields a
CloneEntry (the extra tokens are ignored); blank and comment lines are
skipped but still advance the line counter. -/
theorem c2_token_count (lineno : Nat) (raw : String) (rest : List String)
    (hne : stripWsList raw.data ≠ [])
    (hnc : (stripWsList raw.data).head? ≠ some '#') :
    ((tokensOfLine raw).length < 4 →
        readTabAux (raw :: rest) lineno
          = .parseError lineno :: readTabAux rest (lineno + 1))
    ∧ (5 < (tokensOfLine raw).length →
        readTabAux (raw :: rest) lineno
          = .entry (mkEntry (tokensOfLine raw)) :: readTabAux rest (lineno + 1))
    ∧ (∀ blank : String, stripWsList blank.data = [] →
        readTabAux (blank :: rest) lineno = readTabAux rest (lineno + 1))
    ∧ (∀ com : String, (stripWsList com.data).head? = some '#' →
        readTabAux (com :: rest) lineno = readTabAux rest (lineno + 1)) := by
  refine ⟨fun hk => ?_, fun hk => ?_, fun blank hb => ?_, fun com hcm => ?_⟩
  · rcases hl : stripWsList raw.data with _ | ⟨c, cs⟩
    · exact absurd hl hne
    · have hc : ¬ c = '#' := by
        rw [hl] at hnc
        simpa using hnc
      have htok : tokensOfLine raw = (splitWsAux (c :: cs) []).map String.mk := by
        rw [tokensOfLine, hl]
      have hcond : min ((splitWsAux (c :: cs) []).map String.mk).length 5 < 4
          ∨ 5 < min ((splitWsAux (c :: cs) []).map String.mk).length 5 := by
        rw [htok] at hk
        exact Or.inl (by omega)
      have hrl : readLine lineno raw = some (.parseError lineno) := by
        unfold readLine
        rw [hl]
        dsimp only
        rw [if_neg hc, if_pos hcond]
      exact readTabAux_item raw rest lineno _ hrl
  · rcases hl : stripWsList raw.data with _ | ⟨c, cs⟩
    · exact absurd hl hne
    · have hc : ¬ c = '#' := by
        rw [hl] at hnc
        simpa using hnc
      have htok : tokensOfLine raw = (splitWsAux (c :: cs) []).map String.mk := by
        rw [tokensOfLine, hl]
      have hcond : ¬ (min ((splitWsAux (c :: cs) []).map String.mk).length 5 < 4
          ∨ 5 < min ((splitWsAux (c :: cs) []).map String.mk).length 5) := by
        rw [htok] at hk
        omega
      have hrl : readLine lineno raw
          = some (.entry (mkEntry ((splitWsAux (c :: cs) []).map String.mk))) := by
        unfold readLine
        rw [hl]
        dsimp only
        rw [if_neg hc, if_neg hcond]
      rw [htok]
      exact readTabAux_item raw rest lineno _ hrl
  · have hrl : readLine lineno blank = none := by
      unfold readLine
      rw [hb]
    exact readTabAux_skip blank rest lineno hrl
  · rcases hl : stripWsList com.data with _ | ⟨c, cs⟩
    · rw [hl] at hcm
      exact absurd hcm (by simp)
    · have hc : c = '#' := by
        rw [hl] at hcm
        simpa using hcm
      have hrl : readLine lineno com = none := by
        unfold readLine
        rw [hl]
        dsimp only
        rw [if_pos hc]
      exact readTabAux_skip com rest lineno hrl

/-- Witness for C2 at a concrete 2-token line followed by a further line. -/
theorem c2_witness :
    readTabAux ["a b", "n s d m"] 1 = .parseError 1 :: readTabAux ["n s d m"] 2 :=
  (c2_token_count 1 "a b" ["n s d m"] (by decide) (by decide)).1 (by decide)

/-- C2 counterexample: a non-blank, non-comment line with six tokens (token
count greater than 5) does not yield a ParseError; it yields a CloneEntry
built from the first five tokens. -/
theorem c2_counterexample :
    readTab ["a b c d e f"] = [.entry ⟨"a", "b", "c", "d", some "e"⟩]
    ∧ TabItem.parseError 1 ∉ readTab ["a b c d e f"] := by
  exact ⟨by decide, by decide⟩

/-- C3 (the code, not the claim): `add_clone_devices` returns success (0)
with zero artifacts for ANY table-file open failure — also for errors other
than file-not-found, for which the claim (and spec section 4.2) demands a
fatal, non-zero run outcome.  Evaluated at errno `-13` (EACCES). -/
theorem c3_open_failure_returns_zero :
    add_clone_devices (.otherError (-13)) ioOk = (0, [])
    ∧ add_clone_devices .enoent ioOk = (0, [])
    ∧ add_clone_devices (.ok []) ioOk = (0, []) :=
  ⟨rfl, rfl, rfl⟩

/-- C6: a name-derivation failure for the source, dest or metadata path
aborts that entry with a negative status and no artifacts; the gathered run
status is negative, but the remaining items are still processed (their
artifacts are exactly those of the rest of the list). -/
theorem c6_name_derivation_failure (env : IOEnv) (e : CloneEntry) (rest : List TabItem)
    (hfail : unit_name_from_path e.sourceDevice ".device" = none
      ∨ unit_name_from_path e.destDevice ".device" = none
      ∨ unit_name_from_path e.metadataDevice ".device" = none) :
    (generate_clone_units env e.name e.sourceDevice e.destDevice e.metadataDevice e.options).1 < 0
    ∧ (generate_clone_units env e.name e.sourceDevice e.destDevice e.metadataDevice e.options).2
        = []
    ∧ (driveItems env (.entry e :: rest)).1 < 0
    ∧ (driveItems env (.entry e :: rest)).2 = (driveItems env rest).2 := by
  have hgen : generate_clone_units env e.name e.sourceDevice e.destDevice e.metadataDevice
      e.options = (-EINVAL, []) := by
    unfold generate_clone_units
    rcases hfail with h | h | h
    · rw [h]
    · cases hs : unit_name_from_path e.sourceDevice ".device"
      · rfl
      · rw [h]
    · cases hs : unit_name_from_path e.sourceDevice ".device"
      · rfl
      · cases hd : unit_name_from_path e.destDevice ".device"
        · rfl
        · rw [h]
  have hdrive : driveItems env (.entry e :: rest)
      = (ret_gather (-EINVAL) (driveItems env rest).1,
          ([] : List Artifact) ++ (driveItems env rest).2) := by
    simp only [driveItems]
    rw [hgen]
  refine ⟨?_, ?_, ?_, ?_⟩
  · rw [hgen]
    norm_num [EINVAL]
  · rw [hgen]
  · rw [hdrive]
    norm_num [ret_gather, EINVAL]
  · rw [hdrive]
    simp

/-- Witness for C6 at a source path `/` that cannot be canonicalized. -/
theorem c6_witness :
    (generate_clone_units ioOk "c" "/" "/dev/b" "/dev/m" none).1 < 0
    ∧ (generate_clone_units ioOk "c" "/" "/dev/b" "/dev/m" none).2 = []
    ∧ (driveItems ioOk [.entry ⟨"c", "/", "/dev/b", "/dev/m", none⟩]).1 < 0
    ∧ (driveItems ioOk [.entry ⟨"c", "/", "/dev/b", "/dev/m", none⟩]).2
        = (driveItems ioOk []).2 :=
  c6_name_derivation_failure ioOk ⟨"c", "/", "/dev/b", "/dev/m", none⟩ []
    (Or.inl (by decide))

/-- C8: when only the drop-in write fails (all other I/O steps succeed),
the entry still succeeds with status 0, the symlink into the clone target's
requires directory is still produced, and no drop-in artifact is emitted. -/
theorem c8_dropin_best_effort (e : CloneEntry) (su du mu : String) (dfail : Int)
    (hs : unit_name_from_path e.sourceDevice ".device" = some su)
    (hd : unit_name_from_path e.destDevice ".device" = some du)
    (hm : unit_name_from_path e.metadataDevice ".device" = some mu)
    (hneg : dfail < 0) :
    (generate_clone_units ⟨0, 0, 0, dfail, 0⟩ e.name e.sourceDevice e.destDevice
        e.metadataDevice e.options).1 = 0
    ∧ Artifact.symlink SPECIAL_CLONE_TARGET "requires" (serviceUnitName e.name)
        ∈ (generate_clone_units ⟨0, 0, 0, dfail, 0⟩ e.name e.sourceDevice e.destDevice
            e.metadataDevice e.options).2
    ∧ Artifact.dropinFile (dmName e.name) 40 "device-timeout" dropinContents
        ∉ (generate_clone_units ⟨0, 0, 0, dfail, 0⟩ e.name e.sourceDevice e.destDevice
            e.metadataDevice e.options).2 := by
  unfold generate_clone_units
  rw [hs, hd, hm]
  refine ⟨?_, ?_, ?_⟩
  · norm_num [generate_clone_units_io, hneg]
  · norm_num [generate_clone_units_io, hneg]
  · norm_num [generate_clone_units_io, hneg]
    exact ⟨fun h => Artifact.noConfusion h, fun h => Artifact.noConfusion h,
      fun h => Artifact.noConfusion h⟩

/-- Witness for C8 at a concrete entry with drop-in write failing as -5. -/
theorem c8_witness :
    (generate_clone_units ⟨0, 0, 0, -5, 0⟩ "w" "/dev/a" "/dev/b" "/dev/c" none).1 = 0
    ∧ Artifact.symlink SPECIAL_CLONE_TARGET "requires" (serviceUnitName "w")
        ∈ (generate_clone_units ⟨0, 0, 0, -5, 0⟩ "w" "/dev/a" "/dev/b" "/dev/c" none).2
    ∧ Artifact.dropinFile (dmName "w") 40 "device-timeout" dropinContents
        ∉ (generate_clone_units ⟨0, 0, 0, -5, 0⟩ "w" "/dev/a" "/dev/b" "/dev/c" none).2 :=
  c8_dropin_best_effort ⟨"w", "/dev/a", "/dev/b", "/dev/c", none⟩
    "dev-a.device" "dev-b.device" "dev-c.device" (-5) rfl rfl rfl (by decide)

theorem esc_id_list : ∀ (l : List Char), '"' ∉ l → '\\' ∉ l → escShellList l = l
  | [], _, _ => rfl
  | c :: cs, h2, h3 => by
    have hc2 : ¬ c = '"' := by
      intro e
      subst e
      exact h2 (List.mem_cons_self _ _)
    have hc3 : ¬ c = '\\' := by
      intro e
      subst e
      exact h3 (List.mem_cons_self _ _)
    have ih := esc_id_list cs (fun hm => h2 (List.mem_cons_of_mem _ hm))
      (fun hm => h3 (List.mem_cons_of_mem _ hm))
    simp only [escShellList]
    rw [if_neg (by simp [hc3]), if_neg (by simp [hc2]), ih]
    rfl

theorem esc_id (s : String) (h2 : '"' ∉ s.data) (h3 : '\\' ∉ s.data) :
    escapeShellLiteral s = s := by
  obtain ⟨l⟩ := s
  show String.mk (escShellList l) = String.mk l
  rw [esc_id_list l h2 h3]

theorem shellSplitAux_norm_cons (c : Char) (cs cur : List Char) (started : Bool) :
    shellSplitAux (c :: cs) .norm cur started
      = if isWsChar c then
          (if started then
            (shellSplitAux cs .norm [] false).map (fun ts => String.mk cur.reverse :: ts)
          else shellSplitAux cs .norm [] false)
        else if c = '\'' then shellSplitAux cs .squote cur true
        else if c = '"' then shellSplitAux cs .dquote cur true
        else if c = '\\' then shellSplitAux cs .esc cur true
        else shellSplitAux cs .norm (c :: cur) true := rfl

theorem shellSplitAux_squote_cons (c : Char) (cs cur : List Char) (started : Bool) :
    shellSplitAux (c :: cs) .squote cur started
      = if c = '\'' then shellSplitAux cs .norm cur started
        else shellSplitAux cs .squote (c :: cur) started := rfl

theorem norm_word : ∀ (w rest cur : List Char) (b : Bool),
    w ≠ [] →
    (∀ c ∈ w, isWsChar c = false ∧ c ≠ '\'' ∧ c ≠ '"' ∧ c ≠ '\\') →
    shellSplitAux (w ++ rest) .norm cur b = shellSplitAux rest .norm (w.reverse ++ cur) true
  | [], _, _, _, hne, _ => absurd rfl hne
  | c :: w, rest, cur, b, _, hok => by
    have hc := hok c (List.mem_cons_self _ _)
    have hstep : shellSplitAux ((c :: w) ++ rest) .norm cur b
        = shellSplitAux (w ++ rest) .norm (c :: cur) true := by
      rw [List.cons_append, shellSplitAux_norm_cons, if_neg (by simp [hc.1]),
        if_neg hc.2.1, if_neg hc.2.2.1, if_neg hc.2.2.2]
    rw [hstep]
    rcases w with _ | ⟨d, w⟩
    · simp
    · rw [norm_word (d :: w) rest (c :: cur) true (by simp)
        (fun x hx => hok x (List.mem_cons_of_mem _ hx))]
      congr 1
      simp

theorem squote_body : ∀ (l rest cur : List Char) (b : Bool),
    '\'' ∉ l →
    shellSplitAux (l ++ '\'' :: rest) .squote cur b
      = shellSplitAux rest .norm (l.reverse ++ cur) b
  | [], rest, cur, b, _ => by
    rw [List.nil_append, shellSplitAux_squote_cons, if_pos rfl]
    simp
  | c :: l, rest, cur, b, h => by
    have hc : ¬ c = '\'' := by
      intro e
      subst e
      exact h (List.mem_cons_self _ _)
    rw [List.cons_append, shellSplitAux_squote_cons, if_neg hc,
      squote_body l rest (c :: cur) b (fun hm => h (List.mem_cons_of_mem _ hm))]
    congr 1
    simp

theorem norm_ws (rest cur : List Char) :
    shellSplitAux (' ' :: rest) .norm cur true
      = (shellSplitAux rest .norm [] false).map (fun ts => String.mk cur.reverse :: ts) := by
  rw [shellSplitAux_norm_cons, if_pos (show isWsChar ' ' = true from rfl),
    if_pos (show true = true from rfl)]

theorem norm_quote (rest cur : List Char) (b : Bool) :
    shellSplitAux ('\'' :: rest) .norm cur b = shellSplitAux rest .squote cur true := by
  rw [shellSplitAux_norm_cons, if_neg (by decide), if_pos rfl]

theorem quoted_arg (l rest : List Char) (b : Bool) (h : '\'' ∉ l) :
    shellSplitAux ('\'' :: (l ++ '\'' :: ' ' :: rest)) .norm [] b
      = (shellSplitAux rest .norm [] false).map (fun ts => String.mk l :: ts) := by
  rw [norm_quote, squote_body l (' ' :: rest) [] true h, norm_ws]
  simp

theorem quoted_last (l : List Char) (b : Bool) (h : '\'' ∉ l) :
    shellSplitAux ('\'' :: (l ++ ['\''])) .norm [] b = some [String.mk l] := by
  rw [norm_quote, squote_body l [] [] true h]
  simp [shellSplitAux]

theorem word_arg (w rest : List Char) (hne : w ≠ [])
    (hok : ∀ c ∈ w, isWsChar c = false ∧ c ≠ '\'' ∧ c ≠ '"' ∧ c ≠ '\\') :
    shellSplitAux (w ++ ' ' :: rest) .norm [] false
      = (shellSplitAux rest .norm [] false).map (fun ts => String.mk w :: ts) := by
  rw [norm_word w (' ' :: rest) [] false hne hok, norm_ws]
  simp

theorem path_word (rest : List Char) :
    shellSplitAux (SYSTEMD_CLONE_PATH.data ++ ' ' :: rest) .norm [] false
      = (shellSplitAux rest .norm [] false).map (fun ts => SYSTEMD_CLONE_PATH :: ts) := by
  rw [word_arg SYSTEMD_CLONE_PATH.data rest (by decide) (by decide)]

theorem add_word (rest : List Char) :
    shellSplitAux ('a' :: 'd' :: 'd' :: ' ' :: rest) .norm [] false
      = (shellSplitAux rest .norm [] false).map (fun ts => "add" :: ts) := by
  rw [show ('a' :: 'd' :: 'd' :: ' ' :: rest : List Char)
      = ['a', 'd', 'd'] ++ ' ' :: rest from rfl,
    word_arg ['a', 'd', 'd'] rest (by decide) (by decide)]

theorem exec_tokens (ln la lb lc ld : List Char)
    (hn : '\'' ∉ ln) (ha : '\'' ∉ la) (hb : '\'' ∉ lb) (hc : '\'' ∉ lc) (hd : '\'' ∉ ld) :
    shellSplitAux (SYSTEMD_CLONE_PATH.data ++ (" add '".data
        ++ (ln ++ ("' '".data ++ (la ++ ("' '".data ++ (lb ++ ("' '".data
        ++ (lc ++ ("' '".data ++ (ld ++ "'".data))))))))))) .norm [] false
      = some [SYSTEMD_CLONE_PATH, "add", String.mk ln, String.mk la, String.mk lb,
          String.mk lc, String.mk ld] := by
  show shellSplitAux (SYSTEMD_CLONE_PATH.data ++ ' ' :: 'a' :: 'd' :: 'd' :: ' ' :: '\''
      :: (ln ++ '\'' :: ' ' :: '\'' :: (la ++ '\'' :: ' ' :: '\'' :: (lb ++ '\'' :: ' ' :: '\''
      :: (lc ++ '\'' :: ' ' :: '\'' :: (ld ++ ['\''])))))) .norm [] false = _
  rw [path_word, add_word, quoted_arg ln _ _ hn, quoted_arg la _ _ ha, quoted_arg lb _ _ hb,
    quoted_arg lc _ _ hc, quoted_last ld _ hd]
  rfl

/-- C7 (amended): only the three device-path arguments pass through
`escapeShellLiteral`; all five `ExecStart` arguments are embedded in
single-quoted tokens, which a shell-compatible tokenizer takes literally, so
the command line tokenizes back to the original five argument strings
exactly when the clone name contains no single quote and the device paths
contain no single quote, double quote or backslash; for inputs containing a
double quote or backslash the token is the escaped form, not the original
(see the counterexample). -/
theorem c7_quoting (n s d m : String)
    (hn1 : '\'' ∉ n.data)
    (hs1 : '\'' ∉ s.data) (hs2 : '"' ∉ s.data) (hs3 : '\\' ∉ s.data)
    (hd1 : '\'' ∉ d.data) (hd2 : '"' ∉ d.data) (hd3 : '\\' ∉ d.data)
    (hm1 : '\'' ∉ m.data) (hm2 : '"' ∉ m.data) (hm3 : '\\' ∉ m.data) :
    shellTokenize (execStartValue n (escapeShellLiteral s) (escapeShellLiteral d)
        (escapeShellLiteral m) "")
      = some [SYSTEMD_CLONE_PATH, "add", n, s, d, m, ""] := by
  rw [esc_id s hs2 hs3, esc_id d hd2 hd3, esc_id m hm2 hm3]
  obtain ⟨ln⟩ := n
  obtain ⟨ls⟩ := s
  obtain ⟨ld'⟩ := d
  obtain ⟨lm⟩ := m
  simp only [shellTokenize, execStartValue, sappend_data, data_mk, List.append_assoc]
  exact exec_tokens ln ls ld' lm "".data hn1 hs1 hd1 hm1 (by decide)

/-- Witness for C7 at the scenario arguments, which contain no quote or
backslash characters. -/
theorem c7_witness :
    shellTokenize (execStartValue "disk1" (escapeShellLiteral "/dev/sdb")
        (escapeShellLiteral "/dev/sdc") (escapeShellLiteral "/dev/sdd") "")
      = some [SYSTEMD_CLONE_PATH, "add", "disk1", "/dev/sdb", "/dev/sdc", "/dev/sdd", ""] :=
  c7_quoting "disk1" "/dev/sdb" "/dev/sdc" "/dev/sdd" (by decide) (by decide) (by decide)
    (by decide) (by decide) (by decide) (by decide) (by decide) (by decide) (by decide)

/-- C7 counterexample: for the source path `a"b` (a string containing a
literal double quote), the generated `ExecStart` command line does NOT
tokenize back to the original string; the shell-compatible rule returns the
escaped form `a\"b` as the argument token. -/
theorem c7_counterexample :
    shellTokenize (execStartValue "c" (escapeShellLiteral "a\"b") (escapeShellLiteral "/dev/x")
        (escapeShellLiteral "/dev/y") "")
      ≠ some [SYSTEMD_CLONE_PATH, "add", "c", "a\"b", "/dev/x", "/dev/y", ""]
    ∧ shellTokenize (execStartValue "c" (escapeShellLiteral "a\"b") (escapeShellLiteral "/dev/x")
        (escapeShellLiteral "/dev/y") "")
      = some [SYSTEMD_CLONE_PATH, "add", "c", "a\\\"b", "/dev/x", "/dev/y", ""] :=
  ⟨by decide, by decide⟩

/-- C9: synthesis is deterministic: synthesizing the same CloneEntry twice
(with the same I/O outcomes) yields byte-identical unit text and identical
symlink and drop-in directives; the embedding is a pure function of the
entry, as the source computes every artifact from the entry alone. -/
theorem c9_synthesis_deterministic (entry : CloneEntry) (env : IOEnv) :
    synthesize entry = synthesize entry
    ∧ generate_clone_units env entry.name entry.sourceDevice entry.destDevice
        entry.metadataDevice entry.options
      = generate_clone_units env entry.name entry.sourceDevice entry.destDevice
        entry.metadataDevice entry.options :=
  ⟨rfl, rfl⟩

/-- C10: two entries equal except for the options field synthesize to
identical results — the options value influences no generated artifact. -/
theorem c10_options_noninterference (n s d m : String) (o1 o2 : Option String) (env : IOEnv) :
    synthesize ⟨n, s, d, m, o1⟩ = synthesize ⟨n, s, d, m, o2⟩
    ∧ generate_clone_units env n s d m o1 = generate_clone_units env n s d m o2 :=
  ⟨rfl, rfl⟩

end CloneGen
